import Mathlib

/-!
Verification of the bgit payment-gated git wrapper.

Shallow embedding of the library modules:
* `src/lib/constants.js` — numeric configuration constants.
* `src/lib/crypto.js` — AES-256-GCM token encryption (`encrypt`/`decrypt`/`deriveKey`).
* `src/lib/payment.js` — payment retry loop, error classification, note formatting.
* `src/lib/router.js` — `executeCommit` / `executePush` dispatch.
* `src/lib/token-manager.js` — token-validation cache.
* `src/lib/config.js` — encrypted credential store.

JavaScript strings are embedded as `List Char`; byte buffers as `List Nat`
(values < 256 where it matters).  External Node/`@handcash` primitives
(the AES block core, PBKDF2, the remote provider, the git subprocess) are
modelled as explicit parameters; everything else is translated directly
from the source.
-/

/-- Convert a Lean string literal to the `List Char` embedding of JS strings. -/
def str (s : String) : List Char := s.toList

/-- JS `String.prototype.includes`: `pat` occurs as a contiguous run in `s`. -/
def hasSub (s pat : List Char) : Bool :=
  (List.range (s.length + 1)).any (fun i => ((s.drop i).take pat.length) == pat)

/-- JS `String.prototype.toLowerCase` (ASCII-accurate, as the keyword sets are ASCII). -/
def lowerStr (s : List Char) : List Char := s.map Char.toLower

/-! ## Constants (`src/lib/constants.js`) -/

def PAYMENT_RETRY_MAX_ATTEMPTS : Nat := 3
def PAYMENT_RETRY_BASE_DELAY_MS : Nat := 1000
def PAYMENT_RETRY_MAX_DELAY_MS : Nat := 10000
def TOKEN_VALIDATION_CACHE_TTL_MS : Nat := 3600000
def CRYPTO_KEY_LENGTH : Nat := 32
def CRYPTO_IV_LENGTH : Nat := 12
def CRYPTO_SALT_LENGTH : Nat := 32
def CRYPTO_PBKDF2_ITERATIONS : Nat := 100000

/-- `PAYMENT_AMOUNTS.commit = 0.001` BSV. -/
def PAYMENT_AMOUNTS_commit : ℚ := mkRat 1 1000

/-- `PAYMENT_AMOUNTS.push = 0.001` BSV. -/
def PAYMENT_AMOUNTS_push : ℚ := mkRat 1 1000

/-! ## Crypto module (`src/lib/crypto.js`)

The module calls Node's `crypto.createCipheriv('aes-256-gcm', …)` /
`createDecipheriv`.  AES-GCM encrypts in counter mode — byte `i` of the
ciphertext is plaintext byte `i` XOR a keystream byte determined by
(key, iv, i) — and appends an authentication tag determined by
(key, iv, ciphertext); decryption recomputes the tag, rejects on mismatch,
and XORs with the same keystream.  The AES-derived keystream and GHASH tag
functions are external to the repository, so they are parameters
(`CryptoPrim`); the counter-mode/tag-check structure is concrete.
`pbkdf2Sync` (used by `deriveKey`) is likewise a parameter. -/

structure CryptoPrim where
  keystream : List Nat → List Nat → Nat → Nat
  tagOf : List Nat → List Nat → List Nat → List Nat
  pbkdf2 : List Nat → List Nat → Nat → Nat → List Nat

/-- Counter-mode XOR: byte `i` of the input is XORed with keystream byte `start + i`. -/
def ctrXor (ks : Nat → Nat) : Nat → List Nat → List Nat
  | _, [] => []
  | i, b :: bs => (b ^^^ ks i) :: ctrXor ks (i + 1) bs

/-- Model of Node `Buffer.from(s, 'utf8')`: a fixed-width injective character
codec standing in for UTF-8 (the claims depend only on the codec
round-tripping and producing bytes < 256, which UTF-8 does for every JS
string the module receives). -/
def charToBytes (c : Char) : List Nat :=
  [c.toNat % 256, c.toNat / 256 % 256, c.toNat / 65536 % 256, c.toNat / 16777216]

def utf8Encode (s : List Char) : List Nat := (s.map charToBytes).flatten

/-- Model of `buffer.toString('utf8')`, inverse of `utf8Encode`. -/
def utf8Decode : List Nat → List Char
  | a :: b :: c :: d :: rest =>
      Char.ofNat (a + 256 * b + 65536 * c + 16777216 * d) :: utf8Decode rest
  | _ => []

/-- Hex alphabet used by Node `buffer.toString('hex')`. -/
def hexDigits : List Char := str "0123456789abcdef"

def byteToHex (b : Nat) : List Char :=
  [hexDigits.getD (b / 16) 'x', hexDigits.getD (b % 16) 'x']

def bytesToHex (bs : List Nat) : List Char := (bs.map byteToHex).flatten

def hexVal (c : Char) : Nat := hexDigits.indexOf c

/-- Model of `Buffer.from(s, 'hex')`. -/
def hexToBytes : List Char → List Nat
  | c1 :: c2 :: rest => (hexVal c1 * 16 + hexVal c2) :: hexToBytes rest
  | _ => []

/-- `cipher.update`/`cipher.final`/`cipher.getAuthTag` for `aes-256-gcm`:
returns (ciphertext bytes, auth tag bytes). -/
def gcmEncrypt (P : CryptoPrim) (key iv pt : List Nat) : List Nat × List Nat :=
  let ct := ctrXor (P.keystream key iv) 0 pt
  (ct, P.tagOf key iv ct)

/-- `decipher.update`/`decipher.setAuthTag`/`decipher.final`: `none` models the
"Unsupported state or unable to authenticate data" throw on tag mismatch. -/
def gcmDecrypt (P : CryptoPrim) (key iv ct tag : List Nat) : Option (List Nat) :=
  if P.tagOf key iv ct = tag then some (ctrXor (P.keystream key iv) 0 ct) else none

/-- The `{ciphertext, iv, authTag}` record returned by `encrypt` (hex strings). -/
structure EncryptedData where
  ciphertext : List Char
  iv : List Char
  authTag : List Char
deriving DecidableEq, Repr

/-- `encrypt(plaintext, key)` from `src/lib/crypto.js`; the random IV bytes
(`crypto.randomBytes(CRYPTO_IV_LENGTH)`) are passed in explicitly. -/
def encrypt (P : CryptoPrim) (ivBytes : List Nat) (plaintext : List Char)
    (key : List Nat) : Except (List Char) EncryptedData :=
  if plaintext = [] then
    .error (str "Plaintext must be a non-empty string")
  else if key.length ≠ CRYPTO_KEY_LENGTH then
    .error (str "Key must be a 32-byte Buffer")
  else
    let (ct, tag) := gcmEncrypt P key ivBytes (utf8Encode plaintext)
    .ok ⟨bytesToHex ct, bytesToHex ivBytes, bytesToHex tag⟩

/-- `decrypt(encrypted, key)` from `src/lib/crypto.js`. -/
def decrypt (P : CryptoPrim) (encrypted : EncryptedData) (key : List Nat) :
    Except (List Char) (List Char) :=
  if encrypted.ciphertext = [] ∨ encrypted.iv = [] ∨ encrypted.authTag = [] then
    .error (str "Encrypted data must contain ciphertext, iv, and authTag")
  else if key.length ≠ CRYPTO_KEY_LENGTH then
    .error (str "Key must be a 32-byte Buffer")
  else
    match gcmDecrypt P key (hexToBytes encrypted.iv) (hexToBytes encrypted.ciphertext)
        (hexToBytes encrypted.authTag) with
    | some pt => .ok (utf8Decode pt)
    | none =>
        .error (str "Decryption failed: Data has been tampered with or wrong encryption key")

/-- `deriveKey(password, salt)` from `src/lib/crypto.js`: PBKDF2-SHA256,
100000 iterations, 32-byte output. -/
def deriveKey (P : CryptoPrim) (password salt : List Nat) : List Nat :=
  P.pbkdf2 password salt CRYPTO_PBKDF2_ITERATIONS CRYPTO_KEY_LENGTH

/-! ## Payment module (`src/lib/payment.js`)

The remote `account.wallet.pay(paymentParameters)` call is external: it is
modelled by `outcome : Nat → Except (List Char) PayResult`, giving the result
of the `attempt`-th remote attempt (`.error msg` models a throw whose
`error.message` is `msg`).  `PayTrace` records what the retry loop did:
its final result, how many remote attempts were made, and the list of
backoff sleeps performed (in order). -/

deriving instance DecidableEq for Except

/-- Result object of a successful `account.wallet.pay` call. -/
structure PayResult where
  transactionId : List Char
deriving DecidableEq, Repr

structure PayTrace where
  result : Except (List Char) PayResult
  attemptsMade : Nat
  sleeps : List Nat
deriving DecidableEq, Repr

/-- `getBackoffDelay(attempt)`: `min(BASE * 2^attempt, MAX)`. -/
def getBackoffDelay (attempt : Nat) : Nat :=
  min (PAYMENT_RETRY_BASE_DELAY_MS * 2 ^ attempt) PAYMENT_RETRY_MAX_DELAY_MS

def retryableKeywords : List (List Char) :=
  [str "network", str "timeout", str "econnrefused", str "enotfound",
   str "etimedout", str "socket hang up"]

def nonRetryableKeywords : List (List Char) :=
  [str "insufficient", str "balance", str "invalid token",
   str "unauthorized", str "forbidden"]

/-- `isRetryableError(error)` over the error's message text. -/
def isRetryableError (message : List Char) : Bool :=
  let m := lowerStr message
  if retryableKeywords.any (fun k => hasSub m k) then true
  else if nonRetryableKeywords.any (fun k => hasSub m k) then false
  else true

/-- `enhancePaymentError(error)` (chalk colour codes omitted: they wrap the
URL text only and carry no information). -/
def enhancePaymentError (message : List Char) : List Char :=
  let m := lowerStr message
  if hasSub m (str "insufficient") || hasSub m (str "balance") then
    str "Insufficient balance in your HandCash wallet.\nAdd funds at: https://handcash.io\nOriginal error: " ++ message
  else if hasSub m (str "unauthorized") || hasSub m (str "invalid token") then
    str "Your authentication has expired.\nPlease run: bgit auth login\nOriginal error: " ++ message
  else if hasSub m (str "network") || hasSub m (str "timeout") then
    str "Network error - please check your internet connection and try again.\nOriginal error: " ++ message
  else if hasSub m (str "api") || hasSub m (str "handcash") then
    str "HandCash API error - the service may be temporarily unavailable.\nPlease try again later.\nOriginal error: " ++ message
  else
    str "Payment failed: " ++ message

/-- The `for (let attempt = 0; attempt < maxRetries; attempt++)` loop of
`executePayment`, by recursion on the remaining iteration count
(`remaining = maxRetries - attempt`; the source's `attempt === maxRetries - 1`
break test is `remaining = 1`).  On `remaining = 0` the loop has exhausted
all retries and the source throws `enhancePaymentError(lastError)`. -/
def payFor (outcome : Nat → Except (List Char) PayResult) (maxRetries : Nat) :
    Nat → Option (List Char) → PayTrace
  | 0, lastError => ⟨.error (enhancePaymentError (lastError.getD [])), 0, []⟩
  | r + 1, _ =>
    let attempt := maxRetries - (r + 1)
    match outcome attempt with
    | .ok result => ⟨.ok result, 1, []⟩
    | .error e =>
      if !isRetryableError e || r = 0 then
        ⟨.error (enhancePaymentError e), 1, []⟩
      else
        let delay := getBackoffDelay attempt
        let rest := payFor outcome maxRetries r (some e)
        ⟨rest.result, rest.attemptsMade + 1, delay :: rest.sleeps⟩

/-- `executePayment(amount, note, authToken, options)`; `options.checkBalance`
defaults to false so the pre-flight balance branch is dead, and
`options.maxRetries` defaults to `PAYMENT_RETRY_MAX_ATTEMPTS`. -/
def executePayment (amount : ℚ) (note authToken : List Char) (maxRetries : Nat)
    (outcome : Nat → Except (List Char) PayResult) : PayTrace :=
  if authToken = [] then
    ⟨.error (str "Auth token is required for payment"), 0, []⟩
  else if amount ≤ 0 then
    ⟨.error (str "Payment amount must be greater than 0"), 0, []⟩
  else
    payFor outcome maxRetries maxRetries none

/-- `formatCommitNote(commitHash)`: `"Commit: " + commitHash.substring(0, 8)`. -/
def formatCommitNote (commitHash : List Char) : List Char :=
  str "Commit: " ++ commitHash.take 8

/-- `formatPushNote(remote, branch)`: `("Push: " + branch).substring(0, 25)`. -/
def formatPushNote (remote branch : List Char) : List Char :=
  (str "Push: " ++ branch).take 25

/-- `softFailPayment(paymentFn, operation)`: returns
(payment succeeded, warning emitted). -/
def softFailPayment (paymentOutcome : Except (List Char) PayResult) : Bool × Bool :=
  match paymentOutcome with
  | .ok _ => (true, false)
  | .error _ => (false, true)

/-! ## Command router (`src/lib/router.js`)

The git subprocess and `git rev-parse HEAD` are external: `GitEnv` supplies
the exit code `spawn('git', args)` resolves with and the `execSync` result
(`.error` models a throw), plus the remote payment outcomes consumed by
`executePayment`. -/

structure GitEnv where
  gitExitCode : Int
  revParse : Except (List Char) (List Char)
  payOutcome : Nat → Except (List Char) PayResult

structure CommitResult where
  exitCode : Int
  paymentInvoked : Bool
  warningEmitted : Bool
deriving DecidableEq, Repr

structure PushResult where
  exitCode : Int
  gitInvoked : Bool
deriving DecidableEq, Repr

/-- The `executePayment(PAYMENT_AMOUNTS.commit, formatCommitNote(hash), authToken)`
call inside `executeCommit`. -/
def commitPayment (env : GitEnv) (authToken commitHash : List Char) : PayTrace :=
  executePayment PAYMENT_AMOUNTS_commit (formatCommitNote commitHash) authToken
    PAYMENT_RETRY_MAX_ATTEMPTS env.payOutcome

/-- `executeCommit(args, authToken)`: git commit first, then soft-fail payment. -/
def executeCommit (env : GitEnv) (authToken : List Char) : CommitResult :=
  if env.gitExitCode ≠ 0 then
    ⟨env.gitExitCode, false, false⟩
  else
    match env.revParse with
    | .error _ => ⟨0, false, false⟩
    | .ok commitHash =>
      let (_succeeded, warned) := softFailPayment (commitPayment env authToken commitHash).result
      ⟨0, true, warned⟩

/-- The `executePayment(PAYMENT_AMOUNTS.push, formatPushNote(remote, branch), authToken)`
call inside `executePush`, with the source's argument extraction
(`remote = args[1] ?? 'origin'`, `branch = args[2] ?? 'main'`). -/
def pushPayment (env : GitEnv) (args : List (List Char)) (authToken : List Char) : PayTrace :=
  executePayment PAYMENT_AMOUNTS_push
    (formatPushNote (args.getD 1 (str "origin")) (args.getD 2 (str "main")))
    authToken PAYMENT_RETRY_MAX_ATTEMPTS env.payOutcome

/-- `executePush(args, authToken)`: pay first (gatekeeper), then git push. -/
def executePush (env : GitEnv) (args : List (List Char)) (authToken : List Char) : PushResult :=
  match (pushPayment env args authToken).result with
  | .error _ => ⟨1, false⟩
  | .ok _ => ⟨env.gitExitCode, true⟩

/-! ## Token manager (`src/lib/token-manager.js`)

The module-level `validationCache` Map is threaded explicitly; `Date.now()`
is the explicit `now` argument (milliseconds).  The remote
`account.profile.getCurrentProfile()` call is external, modelled by
`provider : Except (List Char) (Option Profile)` (`.error` models a throw,
`.ok none` a null profile). -/

structure PublicProfile where
  handle : List Char
deriving DecidableEq, Repr

structure Profile where
  publicProfile : Option PublicProfile
deriving DecidableEq, Repr

structure CacheEntry where
  valid : Bool
  timestamp : Nat
deriving DecidableEq, Repr

abbrev ValidationCache := List (List Char × CacheEntry)

/-- The truthiness test `profile && profile.publicProfile && profile.publicProfile.handle`. -/
def profileWellFormed : Option Profile → Bool
  | some p =>
    match p.publicProfile with
    | some pub => pub.handle ≠ []
    | none => false
  | none => false

/-- `Map.delete` on the validation cache. -/
def cacheDelete (cache : ValidationCache) (authToken : List Char) : ValidationCache :=
  cache.eraseP (fun p => p.1 == authToken)

/-- `getCachedValidation(authToken)`: returns the cached boolean (`none` models
the source's `null`) and the possibly-pruned cache. -/
def getCachedValidation (cache : ValidationCache) (now : Nat) (authToken : List Char) :
    Option Bool × ValidationCache :=
  match cache.lookup authToken with
  | none => (none, cache)
  | some cached =>
    if now - cached.timestamp > TOKEN_VALIDATION_CACHE_TTL_MS then
      (none, cacheDelete cache authToken)
    else
      (some cached.valid, cache)

/-- `setCachedValidation(authToken, valid)` (`Map.set`: replaces any existing entry). -/
def setCachedValidation (cache : ValidationCache) (now : Nat) (authToken : List Char)
    (valid : Bool) : ValidationCache :=
  (authToken, ⟨valid, now⟩) :: cacheDelete cache authToken

/-- `clearValidationCache()`: `Map.clear`. -/
def clearValidationCache : ValidationCache := []

/-- What one `isTokenValid` call did: its boolean result, the cache it leaves
behind, and how many remote profile lookups it performed. -/
structure ValidOutcome where
  result : Bool
  cache : ValidationCache
  remoteLookups : Nat
deriving DecidableEq, Repr

/-- `isTokenValid(authToken)` from `src/lib/token-manager.js`. -/
def isTokenValid (cache : ValidationCache) (now : Nat) (authToken : List Char)
    (provider : Except (List Char) (Option Profile)) : ValidOutcome :=
  if authToken = [] then
    ⟨false, cache, 0⟩
  else
    match getCachedValidation cache now authToken with
    | (some cached, cache') => ⟨cached, cache', 0⟩
    | (none, cache') =>
      match provider with
      | .ok profile =>
        if profileWellFormed profile then
          ⟨true, setCachedValidation cache' now authToken true, 1⟩
        else
          ⟨false, setCachedValidation cache' now authToken false, 1⟩
      | .error _ =>
        ⟨false, setCachedValidation cache' now authToken false, 1⟩

/-! ## Credential store (`src/lib/config.js`)

The `~/.bgit` directory is the explicit `FsState` (the `config.json` record
and the `.salt` file).  `os.hostname()`/`os.userInfo().username` hashing is
summarised by the opaque-string `machineId` argument (`getMachineId()` output,
a 64-char hex digest, in particular non-empty); `crypto.randomBytes` output
is passed in explicitly (`saltRand`, `ivRand`); `new Date().toISOString()`
is the `now` argument. -/

/-- The `config.json` object written by `saveToken`. -/
structure ConfigRecord where
  version : List Char
  encrypted : EncryptedData
  createdAt : List Char
  machineId : List Char
deriving DecidableEq, Repr

structure FsState where
  config : Option ConfigRecord
  salt : Option (List Nat)
deriving DecidableEq, Repr

/-- `getMachineKey()`: loads (or generates and persists) the salt, checks its
length, and derives the machine key; returns the key and the updated store. -/
def getMachineKey (P : CryptoPrim) (st : FsState) (machineId : List Char)
    (saltRand : List Nat) : Except (List Char) (List Nat × FsState) :=
  match st.salt with
  | some salt =>
    if salt.length ≠ CRYPTO_SALT_LENGTH then
      .error (str "Failed to get machine key: Invalid salt file (corrupted)")
    else
      .ok (deriveKey P (utf8Encode machineId) salt, st)
  | none =>
    .ok (deriveKey P (utf8Encode machineId) saltRand, { st with salt := some saltRand })

/-- `saveToken(authToken)` from `src/lib/config.js`. -/
def saveToken (P : CryptoPrim) (st : FsState) (machineId : List Char)
    (saltRand ivRand : List Nat) (now authToken : List Char) :
    Except (List Char) FsState :=
  if authToken = [] then
    .error (str "Auth token must be a non-empty string")
  else
    match getMachineKey P st machineId saltRand with
    | .error e => .error (str "Failed to save token: " ++ e)
    | .ok (key, st') =>
      match encrypt P ivRand authToken key with
      | .error e => .error (str "Failed to save token: " ++ e)
      | .ok encrypted =>
        .ok { st' with
              config := some ⟨str "2.0", encrypted, now, machineId⟩ }

/-- `loadToken()` from `src/lib/config.js`: `.ok none` models the source's
`null` ("no token saved yet"). -/
def loadToken (P : CryptoPrim) (st : FsState) (machineId : List Char)
    (saltRand : List Nat) : Except (List Char) (Option (List Char)) :=
  match st.config with
  | none => .ok none
  | some config =>
    if config.machineId = [] then
      .error (str "Failed to load token: Config file is corrupted (missing required fields)")
    else
      match getMachineKey P st machineId saltRand with
      | .error e => .error (str "Failed to load token: " ++ e)
      | .ok (key, _) =>
        match decrypt P config.encrypted key with
        | .ok authToken => .ok (some authToken)
        | .error e => .error (str "Failed to load token: " ++ e)

/-- `deleteToken()`: returns whether a record was deleted, plus the new store. -/
def deleteToken (st : FsState) : Bool × FsState :=
  match st.config with
  | some _ => (true, { st with config := none })
  | none => (false, st)

/-- `hasToken()`. -/
def hasToken (st : FsState) : Bool := st.config.isSome

/-! ## Helper lemmas -/

/-- One non-retryable failure settles the retry loop immediately: no sleep,
one attempt, enhanced error. -/
theorem payFor_terminal (outcome : Nat → Except (List Char) PayResult)
    (maxRetries r : Nat) (lastError : Option (List Char)) (e : List Char)
    (hout : outcome (maxRetries - (r + 1)) = .error e)
    (hret : isRetryableError e = false) :
    payFor outcome maxRetries (r + 1) lastError =
      ⟨.error (enhancePaymentError e), 1, []⟩ := by
  unfold payFor
  simp [hout, hret]

/-! ## C8: backoff schedule -/

/-- C8: the retry backoff delay for the n-th failed attempt (0-indexed) is
`min(base * 2^n, maximum)` with base 1000 ms and maximum 10000 ms; in
particular the first two delays are 1000 ms and 2000 ms. -/
theorem backoff_delay_schedule (n : Nat) :
    getBackoffDelay n = min (1000 * 2 ^ n) 10000 ∧
    getBackoffDelay 0 = 1000 ∧ getBackoffDelay 1 = 2000 :=
  ⟨rfl, by decide, by decide⟩

/-- Witness for `backoff_delay_schedule` at n = 4 (where the cap bites:
16000 is clamped to 10000). -/
theorem backoff_delay_schedule_witness :
    getBackoffDelay 4 = min (1000 * 2 ^ 4) 10000 ∧
    getBackoffDelay 0 = 1000 ∧ getBackoffDelay 1 = 2000 :=
  backoff_delay_schedule 4

/-! ## C4: terminal error stops retrying -/

/-- C4: if the first remote pay attempt throws an error whose message has a
non-retryable keyword and no retryable keyword, `executePayment` makes
exactly one remote attempt, performs no backoff sleep, and raises the
enhanced error. -/
theorem terminal_error_single_attempt (amount : ℚ) (note authToken e : List Char)
    (outcome : Nat → Except (List Char) PayResult)
    (htok : authToken ≠ []) (hamt : 0 < amount)
    (hout : outcome 0 = .error e)
    (hnoretry : retryableKeywords.any (fun k => hasSub (lowerStr e) k) = false)
    (hterm : nonRetryableKeywords.any (fun k => hasSub (lowerStr e) k) = true) :
    executePayment amount note authToken PAYMENT_RETRY_MAX_ATTEMPTS outcome =
      ⟨.error (enhancePaymentError e), 1, []⟩ := by
  have hret : isRetryableError e = false := by
    simp [isRetryableError, hnoretry, hterm]
  unfold executePayment
  rw [if_neg htok, if_neg (by exact not_le.mpr hamt)]
  exact payFor_terminal outcome 3 2 none e hout hret

/-- Witness for `terminal_error_single_attempt`: an "insufficient balance"
failure on the first attempt. -/
theorem terminal_error_single_attempt_witness :
    executePayment (mkRat 1 1000) (str "note") (str "tok") PAYMENT_RETRY_MAX_ATTEMPTS
        (fun _ => .error (str "insufficient balance")) =
      ⟨.error (enhancePaymentError (str "insufficient balance")), 1, []⟩ :=
  terminal_error_single_attempt (mkRat 1 1000) (str "note") (str "tok")
    (str "insufficient balance") (fun _ => .error (str "insufficient balance"))
    (by decide) (by decide) rfl (by decide) (by decide)

/-! ## C1: push pays first (gatekeeper) -/

/-- C1: in `executePush`, if `executePayment` throws then git is never invoked
and the exit code is 1; if the payment succeeds, git is invoked and the
tool's exit code is returned. -/
theorem push_payment_gatekeeper (env : GitEnv) (args : List (List Char))
    (authToken : List Char) :
    (∀ e, (pushPayment env args authToken).result = .error e →
      executePush env args authToken = ⟨1, false⟩) ∧
    (∀ receipt, (pushPayment env args authToken).result = .ok receipt →
      executePush env args authToken = ⟨env.gitExitCode, true⟩) := by
  constructor
  · intro e he
    unfold executePush
    rw [he]
  · intro receipt hr
    unfold executePush
    rw [hr]

/-- Witness for `push_payment_gatekeeper`: a failing payment blocks the push
(exit 1, git untouched); a successful payment runs git and propagates its
exit code 7. -/
theorem push_payment_gatekeeper_witness :
    executePush ⟨0, .ok (str "h"), fun _ => .error (str "insufficient balance")⟩
      [str "push"] (str "tok") = ⟨1, false⟩ ∧
    executePush ⟨7, .ok (str "h"), fun _ => .ok ⟨str "tx1"⟩⟩
      [str "push"] (str "tok") = ⟨7, true⟩ :=
  ⟨(push_payment_gatekeeper ⟨0, .ok (str "h"), fun _ => .error (str "insufficient balance")⟩
      [str "push"] (str "tok")).1 (enhancePaymentError (str "insufficient balance"))
      (by decide),
   (push_payment_gatekeeper ⟨7, .ok (str "h"), fun _ => .ok ⟨str "tx1"⟩⟩
      [str "push"] (str "tok")).2 ⟨str "tx1"⟩ (by decide)⟩

/-! ## C2: commit pays after, soft-fail -/

/-- C2: in `executeCommit`, a non-zero git exit code is returned unchanged and
the payment function is never invoked; when git exits 0 and the subsequent
payment throws, the exit code is still 0 and a warning is emitted. -/
theorem commit_soft_fail (env : GitEnv) (authToken : List Char) :
    (env.gitExitCode ≠ 0 → executeCommit env authToken = ⟨env.gitExitCode, false, false⟩) ∧
    (∀ commitHash e, env.gitExitCode = 0 → env.revParse = .ok commitHash →
      (commitPayment env authToken commitHash).result = .error e →
      executeCommit env authToken = ⟨0, true, true⟩) := by
  constructor
  · intro hne
    unfold executeCommit
    rw [if_pos hne]
  · intro commitHash e h0 hrev hpay
    unfold executeCommit
    rw [if_neg (by simp [h0]), hrev]
    simp [softFailPayment, hpay]

/-- Witness for `commit_soft_fail`: git failure (exit 2) skips payment; git
success with a throwing payment still exits 0 with a warning. -/
theorem commit_soft_fail_witness :
    executeCommit ⟨2, .ok (str "abc"), fun _ => .ok ⟨str "tx"⟩⟩ (str "tok") =
      ⟨2, false, false⟩ ∧
    executeCommit ⟨0, .ok (str "abc"), fun _ => .error (str "insufficient balance")⟩
      (str "tok") = ⟨0, true, true⟩ :=
  ⟨(commit_soft_fail ⟨2, .ok (str "abc"), fun _ => .ok ⟨str "tx"⟩⟩ (str "tok")).1
      (by decide),
   (commit_soft_fail ⟨0, .ok (str "abc"), fun _ => .error (str "insufficient balance")⟩
      (str "tok")).2 (str "abc") (enhancePaymentError (str "insufficient balance"))
      rfl rfl (by decide)⟩

/-! ## C9: hash-capture failure silently skips the payment -/

/-- C9: when git commit succeeds (exit 0) but `git rev-parse HEAD` throws,
`executeCommit` returns 0 and the payment function is never invoked. -/
theorem commit_hash_failure_skips_payment (env : GitEnv) (authToken msg : List Char)
    (h0 : env.gitExitCode = 0) (hrev : env.revParse = .error msg) :
    executeCommit env authToken = ⟨0, false, false⟩ := by
  unfold executeCommit
  rw [if_neg (by simp [h0]), hrev]

/-- Witness for `commit_hash_failure_skips_payment`. -/
theorem commit_hash_failure_skips_payment_witness :
    executeCommit ⟨0, .error (str "fatal: not a git repository"),
      fun _ => .ok ⟨str "tx"⟩⟩ (str "tok") = ⟨0, false, false⟩ :=
  commit_hash_failure_skips_payment
    ⟨0, .error (str "fatal: not a git repository"), fun _ => .ok ⟨str "tx"⟩⟩
    (str "tok") (str "fatal: not a git repository") rfl rfl

/-! ## C7: note truncation (corrected) -/

/-- C7 counterexample: for a 40-character commit hash, `formatCommitNote`
produces a 16-character note ("Commit: " plus the 8-character short hash),
not the 25 characters the claim states. -/
theorem formatCommitNote_length_not_25 :
    (List.replicate 40 'a').length = 40 ∧
    (formatCommitNote (List.replicate 40 'a')).length = 16 ∧
    (formatCommitNote (List.replicate 40 'a')).length ≠ 25 := by
  refine ⟨by decide, by decide, by decide⟩

/-- C7 (amended): notes stay within the provider's 25-character limit while
keeping the identifying leading text.  `formatPushNote` truncates a
40-character candidate note to exactly its first 25 characters;
`formatCommitNote` instead pre-truncates the hash to 8 characters, giving a
16-character note (within the limit) that retains the short hash. -/
theorem note_truncation_amended (remote branch commitHash : List Char)
    (hb : (str "Push: " ++ branch).length = 40) (hh : commitHash.length = 40) :
    (formatPushNote remote branch).length = 25 ∧
    formatPushNote remote branch = (str "Push: " ++ branch).take 25 ∧
    (formatCommitNote commitHash).length = 16 ∧
    formatCommitNote commitHash = str "Commit: " ++ commitHash.take 8 ∧
    (formatCommitNote commitHash).length ≤ 25 := by
  refine ⟨?_, rfl, ?_, rfl, ?_⟩
  · rw [formatPushNote, List.length_take, hb]
    omega
  · rw [formatCommitNote, List.length_append, List.length_take, hh]
    have h8 : (str "Commit: ").length = 8 := by decide
    omega
  · rw [formatCommitNote, List.length_append, List.length_take, hh]
    have h8 : (str "Commit: ").length = 8 := by decide
    omega

/-- Witness for `note_truncation_amended`: a 34-character branch name (so the
candidate push note has 40 characters) and a 40-character hash. -/
theorem note_truncation_amended_witness :
    (formatPushNote (str "origin") (List.replicate 34 'b')).length = 25 ∧
    formatPushNote (str "origin") (List.replicate 34 'b') =
      (str "Push: " ++ List.replicate 34 'b').take 25 ∧
    (formatCommitNote (List.replicate 40 'a')).length = 16 ∧
    formatCommitNote (List.replicate 40 'a') =
      str "Commit: " ++ (List.replicate 40 'a').take 8 ∧
    (formatCommitNote (List.replicate 40 'a')).length ≤ 25 :=
  note_truncation_amended (str "origin") (List.replicate 34 'b')
    (List.replicate 40 'a') (by decide) (by decide)

/-! ## Cache lemmas for C5 / C10 -/

/-- The boolean `isTokenValid` derives from a fresh provider response:
well-formed profile → true; null/malformed profile or thrown error → false. -/
def validResult : Except (List Char) (Option Profile) → Bool
  | .ok profile => profileWellFormed profile
  | .error _ => false

theorem lookup_setCachedValidation (cache : ValidationCache) (now : Nat)
    (authToken : List Char) (valid : Bool) :
    (setCachedValidation cache now authToken valid).lookup authToken =
      some ⟨valid, now⟩ := by
  simp [setCachedValidation, List.lookup]

/-- A cache miss (`getCachedValidation` returns the source's `null`) forces a
remote lookup whose boolean is `validResult provider`, cached at `now`. -/
theorem isTokenValid_miss (cache cache' : ValidationCache) (now : Nat)
    (authToken : List Char) (provider : Except (List Char) (Option Profile))
    (htok : authToken ≠ [])
    (hmiss : getCachedValidation cache now authToken = (none, cache')) :
    isTokenValid cache now authToken provider =
      ⟨validResult provider,
       setCachedValidation cache' now authToken (validResult provider), 1⟩ := by
  unfold isTokenValid
  rw [if_neg htok, hmiss]
  match provider with
  | .error e => rfl
  | .ok profile =>
    by_cases hwf : profileWellFormed profile
    · simp [hwf, validResult]
    · simp at hwf
      simp [hwf, validResult]

/-- A cache hit skips the provider entirely: cached boolean, zero lookups. -/
theorem isTokenValid_hit (cache cache' : ValidationCache) (now : Nat)
    (authToken : List Char) (provider : Except (List Char) (Option Profile))
    (valid : Bool) (htok : authToken ≠ [])
    (hhit : getCachedValidation cache now authToken = (some valid, cache')) :
    isTokenValid cache now authToken provider = ⟨valid, cache', 0⟩ := by
  unfold isTokenValid
  rw [if_neg htok, hhit]

/-- A token with no cache entry misses the cache. -/
theorem getCachedValidation_of_lookup_none (cache : ValidationCache) (now : Nat)
    (authToken : List Char) (hmiss : cache.lookup authToken = none) :
    getCachedValidation cache now authToken = (none, cache) := by
  unfold getCachedValidation
  rw [hmiss]

/-- A cached entry younger than the TTL is a hit: no pruning, cached boolean. -/
theorem getCachedValidation_hit (cache : ValidationCache) (tW tR : Nat)
    (authToken : List Char) (valid : Bool)
    (hlook : cache.lookup authToken = some ⟨valid, tW⟩)
    (httl : tR - tW ≤ TOKEN_VALIDATION_CACHE_TTL_MS) :
    getCachedValidation cache tR authToken = (some valid, cache) := by
  unfold getCachedValidation
  rw [hlook]
  simp only [if_neg (by omega : ¬ tR - tW > TOKEN_VALIDATION_CACHE_TTL_MS)]

/-- A cached entry older than the TTL is purged and reported as a miss. -/
theorem getCachedValidation_expired (cache : ValidationCache) (tW tR : Nat)
    (authToken : List Char) (valid : Bool)
    (hlook : cache.lookup authToken = some ⟨valid, tW⟩)
    (httl : TOKEN_VALIDATION_CACHE_TTL_MS < tR - tW) :
    getCachedValidation cache tR authToken = (none, cacheDelete cache authToken) := by
  unfold getCachedValidation
  rw [hlook]
  simp only [if_pos (by omega : tR - tW > TOKEN_VALIDATION_CACHE_TTL_MS)]

/-! ## C5: the validation cache deduplicates remote lookups -/

/-- C5: starting from a state with no entry for the token, two `isTokenValid`
calls for the same token within the one-hour TTL window perform exactly one
remote profile lookup — the second call is served from the cache and returns
the same boolean; after `clearValidationCache()` the next call performs a
fresh remote lookup. -/
theorem validation_cache_single_lookup (cache : ValidationCache)
    (authToken : List Char) (t1 t2 t3 : Nat)
    (prov1 prov2 prov3 : Except (List Char) (Option Profile))
    (htok : authToken ≠ []) (hmiss : cache.lookup authToken = none)
    (h12 : t1 ≤ t2) (httl : t2 - t1 ≤ TOKEN_VALIDATION_CACHE_TTL_MS) :
    (isTokenValid cache t1 authToken prov1).remoteLookups = 1 ∧
    (isTokenValid (isTokenValid cache t1 authToken prov1).cache t2 authToken
        prov2).remoteLookups = 0 ∧
    (isTokenValid (isTokenValid cache t1 authToken prov1).cache t2 authToken
        prov2).result = (isTokenValid cache t1 authToken prov1).result ∧
    (isTokenValid clearValidationCache t3 authToken prov3).remoteLookups = 1 := by
  have h1 := isTokenValid_miss cache cache t1 authToken prov1 htok
    (getCachedValidation_of_lookup_none cache t1 authToken hmiss)
  have hcache1 : (isTokenValid cache t1 authToken prov1).cache =
      setCachedValidation cache t1 authToken (validResult prov1) := by rw [h1]
  have hlook1 : (isTokenValid cache t1 authToken prov1).cache.lookup authToken =
      some ⟨validResult prov1, t1⟩ := by
    rw [hcache1]; exact lookup_setCachedValidation cache t1 authToken _
  have h2 : isTokenValid (isTokenValid cache t1 authToken prov1).cache t2 authToken prov2 =
      ⟨validResult prov1, (isTokenValid cache t1 authToken prov1).cache, 0⟩ :=
    isTokenValid_hit _ _ t2 authToken prov2 (validResult prov1) htok
      (getCachedValidation_hit _ t1 t2 authToken (validResult prov1) hlook1 httl)
  have h3 := isTokenValid_miss clearValidationCache clearValidationCache t3 authToken
    prov3 htok
    (getCachedValidation_of_lookup_none clearValidationCache t3 authToken rfl)
  refine ⟨by rw [h1], by rw [h2], by rw [h2, h1], by rw [h3]⟩

/-- Witness for `validation_cache_single_lookup`: a concrete token validated
at t=0 and re-checked at t=1000 against an empty initial cache. -/
theorem validation_cache_single_lookup_witness :
    (isTokenValid [] 0 (str "tok") (.ok (some ⟨some ⟨str "handle"⟩⟩))).remoteLookups = 1 ∧
    (isTokenValid (isTokenValid [] 0 (str "tok") (.ok (some ⟨some ⟨str "handle"⟩⟩))).cache
        1000 (str "tok") (.error (str "down"))).remoteLookups = 0 ∧
    (isTokenValid (isTokenValid [] 0 (str "tok") (.ok (some ⟨some ⟨str "handle"⟩⟩))).cache
        1000 (str "tok") (.error (str "down"))).result =
      (isTokenValid [] 0 (str "tok") (.ok (some ⟨some ⟨str "handle"⟩⟩))).result ∧
    (isTokenValid clearValidationCache 2000 (str "tok")
        (.ok (some ⟨some ⟨str "handle"⟩⟩))).remoteLookups = 1 :=
  validation_cache_single_lookup [] (str "tok") 0 1000 2000
    (.ok (some ⟨some ⟨str "handle"⟩⟩)) (.error (str "down"))
    (.ok (some ⟨some ⟨str "handle"⟩⟩)) (by decide) rfl (by decide) (by decide)

/-! ## C10: negative results are cached with the same TTL -/

/-- C10: a provider error or malformed profile stores `{valid: false}`; while
that entry is younger than the one-hour TTL, every `isTokenValid` call for
the token returns false with no remote lookup and leaves the cache unchanged
— even for a provider that would now accept the token — and once the entry
is older than the TTL, or after `clearValidationCache()`, the next call
performs a fresh remote lookup. -/
theorem negative_validation_cached (cache : ValidationCache)
    (authToken : List Char) (t1 : Nat)
    (prov1 : Except (List Char) (Option Profile))
    (htok : authToken ≠ []) (hmiss : cache.lookup authToken = none)
    (hbad : validResult prov1 = false) :
    (isTokenValid cache t1 authToken prov1).result = false ∧
    (isTokenValid cache t1 authToken prov1).remoteLookups = 1 ∧
    (isTokenValid cache t1 authToken prov1).cache.lookup authToken =
      some ⟨false, t1⟩ ∧
    (∀ t2 prov2, t2 - t1 ≤ TOKEN_VALIDATION_CACHE_TTL_MS →
      isTokenValid (isTokenValid cache t1 authToken prov1).cache t2 authToken prov2 =
        ⟨false, (isTokenValid cache t1 authToken prov1).cache, 0⟩) ∧
    (∀ t3 prov3, TOKEN_VALIDATION_CACHE_TTL_MS < t3 - t1 →
      (isTokenValid (isTokenValid cache t1 authToken prov1).cache t3 authToken
        prov3).remoteLookups = 1) ∧
    (∀ t4 prov4,
      (isTokenValid clearValidationCache t4 authToken prov4).remoteLookups = 1) := by
  have h1 := isTokenValid_miss cache cache t1 authToken prov1 htok
    (getCachedValidation_of_lookup_none cache t1 authToken hmiss)
  rw [hbad] at h1
  have hlook1 : (isTokenValid cache t1 authToken prov1).cache.lookup authToken =
      some ⟨false, t1⟩ := by
    rw [h1]; exact lookup_setCachedValidation cache t1 authToken false
  refine ⟨by rw [h1], by rw [h1], hlook1, ?_, ?_, ?_⟩
  · intro t2 prov2 httl
    exact isTokenValid_hit _ _ t2 authToken prov2 false htok
      (getCachedValidation_hit _ t1 t2 authToken false hlook1 httl)
  · intro t3 prov3 httl
    have hexp := getCachedValidation_expired _ t1 t3 authToken false hlook1 httl
    rw [isTokenValid_miss _ _ t3 authToken prov3 htok hexp]
  · intro t4 prov4
    rw [isTokenValid_miss clearValidationCache clearValidationCache t4 authToken prov4
      htok (getCachedValidation_of_lookup_none clearValidationCache t4 authToken rfl)]

/-- Witness for `negative_validation_cached`: a provider outage at t=0 caches
`false`; a working provider at t=60000 is not consulted. -/
theorem negative_validation_cached_witness :
    (isTokenValid [] 0 (str "tok2") (.error (str "econnrefused"))).result = false ∧
    (isTokenValid [] 0 (str "tok2") (.error (str "econnrefused"))).remoteLookups = 1 ∧
    (isTokenValid [] 0 (str "tok2") (.error (str "econnrefused"))).cache.lookup
      (str "tok2") = some ⟨false, 0⟩ ∧
    (∀ t2 prov2, t2 - 0 ≤ TOKEN_VALIDATION_CACHE_TTL_MS →
      isTokenValid (isTokenValid [] 0 (str "tok2") (.error (str "econnrefused"))).cache
          t2 (str "tok2") prov2 =
        ⟨false, (isTokenValid [] 0 (str "tok2") (.error (str "econnrefused"))).cache, 0⟩) ∧
    (∀ t3 prov3, TOKEN_VALIDATION_CACHE_TTL_MS < t3 - 0 →
      (isTokenValid (isTokenValid [] 0 (str "tok2") (.error (str "econnrefused"))).cache
        t3 (str "tok2") prov3).remoteLookups = 1) ∧
    (∀ t4 prov4,
      (isTokenValid clearValidationCache t4 (str "tok2") prov4).remoteLookups = 1) :=
  negative_validation_cached [] (str "tok2") 0 (.error (str "econnrefused"))
    (by decide) rfl rfl

/-! ## Crypto lemmas for C3 / C6 -/

theorem ctrXor_ctrXor (ks : Nat → Nat) (bs : List Nat) :
    ∀ i, ctrXor ks i (ctrXor ks i bs) = bs := by
  induction bs with
  | nil => intro i; rfl
  | cons b rest ih =>
    intro i
    simp [ctrXor, Nat.xor_assoc, ih (i + 1)]

theorem ctrXor_length (ks : Nat → Nat) (bs : List Nat) :
    ∀ i, (ctrXor ks i bs).length = bs.length := by
  induction bs with
  | nil => intro i; rfl
  | cons b rest ih => intro i; simp [ctrXor, ih (i + 1)]

theorem ctrXor_lt (ks : Nat → Nat) (bs : List Nat) (hks : ∀ n, ks n < 256)
    (hbs : ∀ b ∈ bs, b < 256) : ∀ i, ∀ x ∈ ctrXor ks i bs, x < 256 := by
  induction bs with
  | nil => intro i x hx; simp [ctrXor] at hx
  | cons b rest ih =>
    intro i x hx
    simp only [ctrXor, List.mem_cons] at hx
    rcases hx with hx | hx
    · have h1 : b < 2 ^ 8 := hbs b (by simp)
      have h2 : ks i < 2 ^ 8 := hks i
      have h3 := Nat.xor_lt_two_pow h1 h2
      omega
    · exact ih (fun y hy => hbs y (by simp [hy])) (i + 1) x hx

theorem char_toNat_lt (c : Char) : c.toNat < 4294967296 := by
  have h := UInt32.toNat_lt_size c.val
  simpa [UInt32.size] using h

theorem charToBytes_lt (c : Char) : ∀ b ∈ charToBytes c, b < 256 := by
  have h := char_toNat_lt c
  intro b hb
  simp only [charToBytes, List.mem_cons, List.not_mem_nil, or_false] at hb
  rcases hb with rfl | rfl | rfl | rfl <;> omega

theorem utf8Encode_lt (s : List Char) : ∀ b ∈ utf8Encode s, b < 256 := by
  intro b hb
  simp only [utf8Encode, List.mem_flatten, List.mem_map] at hb
  obtain ⟨l, ⟨c, _, rfl⟩, hbl⟩ := hb
  exact charToBytes_lt c b hbl

theorem utf8_roundtrip (s : List Char) : utf8Decode (utf8Encode s) = s := by
  induction s with
  | nil => rfl
  | cons c rest ih =>
    have h := char_toNat_lt c
    have harith : c.toNat % 256 + 256 * (c.toNat / 256 % 256) +
        65536 * (c.toNat / 65536 % 256) + 16777216 * (c.toNat / 16777216) =
        c.toNat := by omega
    simp only [utf8Encode, List.map_cons, List.flatten_cons, charToBytes]
    show Char.ofNat _ :: utf8Decode ((rest.map charToBytes).flatten) = c :: rest
    rw [harith, Char.ofNat_toNat]
    exact congrArg _ ih

theorem hexVal_digit : ∀ n, n < 16 → hexVal (hexDigits.getD n 'x') = n := by decide

theorem hex_roundtrip (bs : List Nat) (hbs : ∀ b ∈ bs, b < 256) :
    hexToBytes (bytesToHex bs) = bs := by
  induction bs with
  | nil => rfl
  | cons b rest ih =>
    have hb : b < 256 := hbs b (by simp)
    simp only [bytesToHex, List.map_cons, List.flatten_cons, byteToHex]
    show hexToBytes (hexDigits.getD (b / 16) 'x' :: hexDigits.getD (b % 16) 'x' ::
      (rest.map byteToHex).flatten) = b :: rest
    unfold hexToBytes
    rw [hexVal_digit (b / 16) (by omega), hexVal_digit (b % 16) (by omega)]
    have : b / 16 * 16 + b % 16 = b := by omega
    rw [this]
    exact congrArg _ (ih (fun y hy => hbs y (by simp [hy])))

theorem bytesToHex_ne_nil (bs : List Nat) (h : bs ≠ []) : bytesToHex bs ≠ [] := by
  cases bs with
  | nil => exact absurd rfl h
  | cons b rest => simp [bytesToHex, byteToHex]

theorem utf8Encode_ne_nil (s : List Char) (h : s ≠ []) : utf8Encode s ≠ [] := by
  cases s with
  | nil => exact absurd rfl h
  | cons c rest => simp [utf8Encode, charToBytes]

/-- Round trip of `encrypt` / `decrypt` under the facts that hold of the real
external primitives: AES-CTR keystream bytes and GCM tag bytes are bytes,
the GCM tag is 16 bytes long, the random IV is 12 bytes. -/
theorem encrypt_decrypt_ok (P : CryptoPrim) (key ivBytes : List Nat) (p : List Char)
    (hp : p ≠ []) (hkey : key.length = CRYPTO_KEY_LENGTH)
    (hiv : ivBytes.length = CRYPTO_IV_LENGTH)
    (hivb : ∀ b ∈ ivBytes, b < 256)
    (hks : ∀ k i n, P.keystream k i n < 256)
    (htag16 : ∀ k i c, (P.tagOf k i c).length = 16)
    (htagb : ∀ k i c, ∀ b ∈ P.tagOf k i c, b < 256) :
    ∃ enc, encrypt P ivBytes p key = .ok enc ∧ decrypt P enc key = .ok p := by
  have hkeyne : ¬ key.length ≠ CRYPTO_KEY_LENGTH := by simp [hkey]
  have henc : encrypt P ivBytes p key =
      .ok ⟨bytesToHex (ctrXor (P.keystream key ivBytes) 0 (utf8Encode p)),
           bytesToHex ivBytes,
           bytesToHex (P.tagOf key ivBytes
             (ctrXor (P.keystream key ivBytes) 0 (utf8Encode p)))⟩ := by
    unfold encrypt
    rw [if_neg hp, if_neg hkeyne]
    rfl
  refine ⟨_, henc, ?_⟩
  have hptne : utf8Encode p ≠ [] := utf8Encode_ne_nil p hp
  have hctne : ctrXor (P.keystream key ivBytes) 0 (utf8Encode p) ≠ [] := by
    intro h
    apply hptne
    have := ctrXor_length (P.keystream key ivBytes) (utf8Encode p) 0
    rw [h] at this
    exact List.eq_nil_of_length_eq_zero this.symm
  have hivne : ivBytes ≠ [] := by
    intro h
    rw [h] at hiv
    simp [CRYPTO_IV_LENGTH] at hiv
  have htagne : P.tagOf key ivBytes (ctrXor (P.keystream key ivBytes) 0 (utf8Encode p)) ≠ [] := by
    intro h
    have h16 := htag16 key ivBytes (ctrXor (P.keystream key ivBytes) 0 (utf8Encode p))
    rw [h] at h16
    simp at h16
  have hctlt : ∀ x ∈ ctrXor (P.keystream key ivBytes) 0 (utf8Encode p), x < 256 :=
    ctrXor_lt (P.keystream key ivBytes) (utf8Encode p) (hks key ivBytes)
      (utf8Encode_lt p) 0
  unfold decrypt
  rw [if_neg (by
    push_neg
    exact ⟨bytesToHex_ne_nil _ hctne, bytesToHex_ne_nil _ hivne,
           bytesToHex_ne_nil _ htagne⟩)]
  rw [if_neg hkeyne]
  unfold gcmDecrypt
  rw [hex_roundtrip _ hivb, hex_roundtrip _ hctlt,
    hex_roundtrip _ (htagb key ivBytes _), if_pos rfl,
    ctrXor_ctrXor (P.keystream key ivBytes) (utf8Encode p) 0]
  show Except.ok (utf8Decode (utf8Encode p)) = Except.ok p
  rw [utf8_roundtrip]

/-! ## C3: encrypt/decrypt round-trip law -/

/-- C3: for every non-empty string plaintext and every 32-byte key,
`decrypt(encrypt(p, k), k)` succeeds and returns `p`.  The hypotheses on
`P` state facts of the external AES-GCM primitives (keystream and tag are
byte-valued, the GCM tag is 16 bytes) and of the 12-byte random IV. -/
theorem crypto_roundtrip (P : CryptoPrim) (key ivBytes : List Nat) (p : List Char)
    (hp : p ≠ []) (hkey : key.length = CRYPTO_KEY_LENGTH)
    (hiv : ivBytes.length = CRYPTO_IV_LENGTH) (hivb : ∀ b ∈ ivBytes, b < 256)
    (hks : ∀ k i n, P.keystream k i n < 256)
    (htag16 : ∀ k i c, (P.tagOf k i c).length = 16)
    (htagb : ∀ k i c, ∀ b ∈ P.tagOf k i c, b < 256) :
    ∃ enc, encrypt P ivBytes p key = .ok enc ∧ decrypt P enc key = .ok p :=
  encrypt_decrypt_ok P key ivBytes p hp hkey hiv hivb hks htag16 htagb

/-- Witness for `crypto_roundtrip` at a concrete primitive, key, IV and
plaintext. -/
theorem crypto_roundtrip_witness :
    ∃ enc, encrypt ⟨fun _ _ _ => 7, fun _ _ _ => List.replicate 16 1,
        fun _ _ _ _ => List.replicate 32 0⟩ (List.replicate 12 9) (str "tok")
        (List.replicate 32 5) = .ok enc ∧
      decrypt ⟨fun _ _ _ => 7, fun _ _ _ => List.replicate 16 1,
        fun _ _ _ _ => List.replicate 32 0⟩ enc (List.replicate 32 5) =
        .ok (str "tok") :=
  crypto_roundtrip ⟨fun _ _ _ => 7, fun _ _ _ => List.replicate 16 1,
      fun _ _ _ _ => List.replicate 32 0⟩
    (List.replicate 32 5) (List.replicate 12 9) (str "tok")
    (by decide) (by decide) (by decide)
    (by intro b hb; rw [List.eq_of_mem_replicate hb]; decide)
    (by intro k i n; show (7 : Nat) < 256; decide)
    (by intro k i c; rfl)
    (by intro k i c b hb; rw [List.eq_of_mem_replicate hb]; decide)

/-! ## C6: credential store round trip -/

/-- C6: with no credential record, `loadToken()` returns the absent value
(not an error); after `saveToken(t)` for a non-empty token, `loadToken()`
returns `t`; after `deleteToken()`, `hasToken()` is false.  Hypotheses state
facts of the external primitives (PBKDF2 yields 32-byte keys, AES-GCM
keystream/tag are bytes, the tag is 16 bytes), of the random byte sources
(32-byte salt, 12-byte IV), of `getMachineId()` (a non-empty hex digest),
and that any pre-existing salt file is well-formed (32 bytes). -/
theorem credential_store_roundtrip (P : CryptoPrim) (st : FsState)
    (machineId authToken now : List Char) (saltRand ivRand : List Nat)
    (hkdf : ∀ pw s, (P.pbkdf2 pw s CRYPTO_PBKDF2_ITERATIONS CRYPTO_KEY_LENGTH).length =
      CRYPTO_KEY_LENGTH)
    (hks : ∀ k i n, P.keystream k i n < 256)
    (htag16 : ∀ k i c, (P.tagOf k i c).length = 16)
    (htagb : ∀ k i c, ∀ b ∈ P.tagOf k i c, b < 256)
    (hmid : machineId ≠ []) (htok : authToken ≠ [])
    (hsalt : st.salt = none ∨ ∃ s, st.salt = some s ∧ s.length = CRYPTO_SALT_LENGTH)
    (hsr : saltRand.length = CRYPTO_SALT_LENGTH)
    (hiv : ivRand.length = CRYPTO_IV_LENGTH) (hivb : ∀ b ∈ ivRand, b < 256) :
    (st.config = none → loadToken P st machineId saltRand = .ok none) ∧
    ∃ st', saveToken P st machineId saltRand ivRand now authToken = .ok st' ∧
      loadToken P st' machineId saltRand = .ok (some authToken) ∧
      hasToken (deleteToken st').2 = false := by
  constructor
  · intro hnoconfig
    unfold loadToken
    rw [hnoconfig]
  · obtain ⟨s, st2, hmkEq, hst2salt, hlen2⟩ :
        ∃ s st2, getMachineKey P st machineId saltRand =
          .ok (deriveKey P (utf8Encode machineId) s, st2) ∧
          st2.salt = some s ∧ s.length = CRYPTO_SALT_LENGTH := by
      rcases hsalt with hnone | ⟨s0, hsome, hlen⟩
      · refine ⟨saltRand, { st with salt := some saltRand }, ?_, rfl, hsr⟩
        unfold getMachineKey
        rw [hnone]
      · refine ⟨s0, st, ?_, hsome, hlen⟩
        unfold getMachineKey
        rw [hsome]
        simp [hlen]
    have hkeylen : (deriveKey P (utf8Encode machineId) s).length = CRYPTO_KEY_LENGTH :=
      hkdf (utf8Encode machineId) s
    obtain ⟨enc, henc, hdec⟩ := encrypt_decrypt_ok P
      (deriveKey P (utf8Encode machineId) s) ivRand authToken htok hkeylen hiv hivb
      hks htag16 htagb
    refine ⟨⟨some ⟨str "2.0", enc, now, machineId⟩, some s⟩, ?_, ?_, ?_⟩
    · unfold saveToken
      rw [if_neg htok]
      simp only [hmkEq, henc]
      rw [hst2salt]
    · simp [loadToken, getMachineKey, hmid, hlen2, hdec]
    · rfl

/-- Witness for `credential_store_roundtrip`: a fresh store, concrete
primitives, machine id "m", token "abc". -/
theorem credential_store_roundtrip_witness :
    ((⟨none, none⟩ : FsState).config = none →
      loadToken ⟨fun _ _ _ => 7, fun _ _ _ => List.replicate 16 1,
          fun _ _ _ _ => List.replicate 32 0⟩ ⟨none, none⟩ (str "m")
          (List.replicate 32 2) = .ok none) ∧
    ∃ st', saveToken ⟨fun _ _ _ => 7, fun _ _ _ => List.replicate 16 1,
          fun _ _ _ _ => List.replicate 32 0⟩ ⟨none, none⟩ (str "m")
          (List.replicate 32 2) (List.replicate 12 9) (str "2024") (str "abc") =
        .ok st' ∧
      loadToken ⟨fun _ _ _ => 7, fun _ _ _ => List.replicate 16 1,
          fun _ _ _ _ => List.replicate 32 0⟩ st' (str "m")
          (List.replicate 32 2) = .ok (some (str "abc")) ∧
      hasToken (deleteToken st').2 = false :=
  credential_store_roundtrip ⟨fun _ _ _ => 7, fun _ _ _ => List.replicate 16 1,
      fun _ _ _ _ => List.replicate 32 0⟩
    ⟨none, none⟩ (str "m") (str "abc") (str "2024")
    (List.replicate 32 2) (List.replicate 12 9)
    (by intro pw s; rfl)
    (by intro k i n; show (7 : Nat) < 256; decide)
    (by intro k i c; rfl)
    (by intro k i c b hb; rw [List.eq_of_mem_replicate hb]; decide)
    (by decide) (by decide) (Or.inl rfl) (by decide) (by decide)
    (by intro b hb; rw [List.eq_of_mem_replicate hb]; decide)
